import Mathlib

/-!
Verification development for the RAG support layer of the repository:
the tenant-aware indexing pipeline, the semantic retriever
(src/lib/clients/google/client.ts, semanticSearch), the model router
(src/lib/functions/openai/responses.ts, getOpenAICompletion) and the
pinecone client module (src/lib/clients/pinecone/client.ts).
External collaborators (embedding provider, vector index, completion
provider) are modelled as explicit parameters; vector coordinates and
similarity scores are opaque numerics, modelled with Int.
-/

namespace Rag

/-- Embedding vectors: ordered sequences of numbers produced by the external
embedding service. Coordinates are opaque numerics, modelled with Int. -/
abbrev EmbeddingVector := List Int

/-- Metadata attached to a stored vector record. -/
abbrev Metadata := List (String × String)

/-- Upstream provider failure (embedding or completion service). -/
inductive ProviderError where
  | upstream : String → ProviderError
deriving DecidableEq

/-- A record stored in the vector index. -/
structure VectorRecord where
  id : String
  values : EmbeddingVector
  metadata : Option Metadata
deriving DecidableEq

/-- State of the external vector index: an association of namespace names to
their record lists. -/
abbrev Store := List (String × List VectorRecord)

/-- Records held by one namespace of the index; a namespace never written to is
empty (the index auto-creates namespaces on first upsert). -/
def namespaceRecords (store : Store) (ns : String) : List VectorRecord :=
  match store.find? (fun p => p.1 == ns) with
  | some p => p.2
  | none => []

/-- Upsert into a record list: overwrite the record with the same id, or append.
An upsert never creates a duplicate id. -/
def upsertRecord : List VectorRecord → VectorRecord → List VectorRecord
  | [], r => [r]
  | x :: xs, r => if x.id == r.id then r :: xs else x :: upsertRecord xs r

/-- Upsert a record into one namespace of the store. -/
def upsertStore : Store → String → VectorRecord → Store
  | [], ns, r => [(ns, [r])]
  | (n, rs) :: rest, ns, r =>
      if n == ns then (n, upsertRecord rs r) :: rest else (n, rs) :: upsertStore rest ns r

/-- A query request sent to the vector index. -/
structure QueryRequest where
  topK : Nat
  vector : EmbeddingVector
  includeMetadata : Bool
deriving DecidableEq

/-- A match returned by the vector index. -/
structure RetrievalMatch where
  id : String
  score : Int
  metadata : Option Metadata
deriving DecidableEq

/-- Response of the vector index to a query. The source field is named
matches; that word is reserved in Lean, so the field is matchList here. -/
structure QueryResponse where
  matchList : List RetrievalMatch
deriving DecidableEq

/-- Descending-score order on retrieval matches. -/
def descRel (a b : RetrievalMatch) : Prop := b.score ≤ a.score

instance : DecidableRel descRel :=
  fun a b => inferInstanceAs (Decidable (b.score ≤ a.score))

instance : IsTotal RetrievalMatch descRel :=
  ⟨fun a b => Int.le_total b.score a.score⟩

instance : IsTrans RetrievalMatch descRel :=
  ⟨fun _ _ _ h1 h2 => le_trans h2 h1⟩

/-- Model of the external vector index query operation (the Pinecone index of
the multitenancy guide in the repository): score every record of the addressed
namespace with the index's similarity metric, order by descending score (the
sort is stable, matching the index's stable tie order), and return the topK
best, with metadata only when requested. -/
def indexQuery (score : EmbeddingVector → EmbeddingVector → Int) (store : Store)
    (ns : String) (req : QueryRequest) : QueryResponse :=
  let scored := (namespaceRecords store ns).map
    (fun r => RetrievalMatch.mk r.id (score req.vector r.values)
      (if req.includeMetadata then r.metadata else none))
  QueryResponse.mk ((scored.insertionSort descRel).take req.topK)

/-- The tenant-to-namespace mapping the code implements: semanticSearch in
src/lib/clients/google/client.ts targets the literal namespace "first-user-1"
for every caller, so every tenant resolves to that one constant namespace. -/
def resolve (tenantId : String) : String := "first-user-1"

/-- The query request semanticSearch builds: the caller's topK, the embedded
query vector, and includeMetadata set to true. -/
def searchRequest (v : EmbeddingVector) (topK : Nat) : QueryRequest :=
  QueryRequest.mk topK v true

/-- Embedding of semanticSearch from src/lib/clients/google/client.ts: embed the
query text, query the index namespace "first-user-1" with the caller's topK
(default 5) and includeMetadata true, and return the response's matches
unchanged. The embedding provider and the index's similarity metric are
external services, passed as parameters. -/
def semanticSearch (score : EmbeddingVector → EmbeddingVector → Int)
    (embed : String → Except ProviderError EmbeddingVector) (store : Store)
    (query : String) (topK : Nat := 5) : Except ProviderError (List RetrievalMatch) :=
  match embed query with
  | Except.error e => Except.error e
  | Except.ok v =>
      Except.ok (indexQuery score store "first-user-1" (searchRequest v topK)).matchList

/-- An outbound request to the OpenAI responses endpoint. -/
structure OpenAIRequest where
  model : String
  input : String
deriving DecidableEq

/-- The outbound request getOpenAICompletion builds: exactly the model hint and
the caller's message, nothing else. -/
def routeRequest (message model : String) : OpenAIRequest := OpenAIRequest.mk model message

/-- Embedding of getOpenAICompletion from src/lib/functions/openai/responses.ts:
build the outbound request from the message and the model hint (default
"gpt-4o"), issue it to the completion provider, and return the provider's
result. The second component is the list of network calls issued. -/
def getOpenAICompletion (complete : OpenAIRequest → Except ProviderError String)
    (message : String) (model : String := "gpt-4o") :
    Except ProviderError String × List OpenAIRequest :=
  (complete (routeRequest message model), [routeRequest message model])

/-- Failure of a client module initialization. -/
inductive InitError where
  | missingEnv : String → InitError
deriving DecidableEq

/-- The pinecone client value the module exports. -/
structure PineconeClient where
  apiKey : String
  indexName : String
deriving DecidableEq

/-- Embedding of the module initialization of src/lib/clients/pinecone/client.ts:
read PINECONE_API_KEY from the environment; the source's truthiness guard
(if (!apiKey) throw) fires both when the variable is absent and when it is set
to the empty string, and the module throws at load time (modelled as the error
result); otherwise the client for index "24Hourgpt" is constructed. -/
def pineconeClientInit (env : String → Option String) : Except InitError PineconeClient :=
  match env "PINECONE_API_KEY" with
  | none => Except.error (InitError.missingEnv "PINECONE_API_KEY")
  | some k =>
      if k = "" then Except.error (InitError.missingEnv "PINECONE_API_KEY")
      else Except.ok (PineconeClient.mk k "24Hourgpt")

/-- Errors surfaced by the Document Indexer. -/
inductive CoreError where
  | validationError : CoreError
  | providerError : ProviderError → CoreError
deriving DecidableEq

/-- External calls an indexDocument call issues, in order. -/
inductive Effect where
  | embedCall : String → Effect
  | upsertCall : String → String → EmbeddingVector → Effect
deriving DecidableEq

/-- Whether an effect is an upsert against the vector index. -/
def isUpsertCall : Effect → Bool
  | Effect.upsertCall _ _ _ => true
  | _ => false

/-- Modelled from the spec: the Document Indexer indexDocument of
lib/functions/pinecone/upsertVectors.ts is not under src; only its test,
src/unnamed/part_003, is. Following spec section 4.3: reject empty content or
empty docId with ValidationError, resolve the namespace, call the embedding
provider propagating its error, then upsert the embedded vector under docId.
The second component records the external calls issued, in order. -/
def indexDocument (embed : String → Except ProviderError EmbeddingVector) (store : Store)
    (tenantId docId content : String) : Except CoreError Store × List Effect :=
  if content = "" ∨ docId = "" then (Except.error CoreError.validationError, [])
  else
    match embed content with
    | Except.error e => (Except.error (CoreError.providerError e), [Effect.embedCall content])
    | Except.ok v =>
        (Except.ok (upsertStore store (resolve tenantId) (VectorRecord.mk docId v none)),
         [Effect.embedCall content, Effect.upsertCall (resolve tenantId) docId v])

/-- Scan of an effect trace: the flag records whether an embed call has been
seen; an upsert call is admissible only once the flag holds. -/
def upsertAfterEmbedAux : Bool → List Effect → Bool
  | _, [] => true
  | _, Effect.embedCall _ :: rest => upsertAfterEmbedAux true rest
  | seen, Effect.upsertCall _ _ _ :: rest => seen && upsertAfterEmbedAux seen rest

/-- Holds of an effect trace in which every upsert call is preceded by an
earlier embed call. -/
def upsertOnlyAfterEmbed (tr : List Effect) : Bool := upsertAfterEmbedAux false tr

/-- Holds when a call that ended in an error issued no upsert effect. -/
def errorImpliesNoUpsert : Except CoreError Store × List Effect → Bool
  | (Except.error _, tr) => tr.all (fun e => !isUpsertCall e)
  | (Except.ok _, _) => true

/-- A provider that embeds every text as the vector with single coordinate 1. -/
def embedOne : String → Except ProviderError EmbeddingVector := fun _ => Except.ok [1]

/-- A provider whose embedding call always fails upstream. -/
def embedBoom : String → Except ProviderError EmbeddingVector :=
  fun _ => Except.error (ProviderError.upstream "boom")

/-- Dot-product similarity, a concrete metric for concrete evaluations. -/
def dotScore : EmbeddingVector → EmbeddingVector → Int
  | a :: as, b :: bs => a * b + dotScore as bs
  | _, _ => 0

/-- A completion provider that accepts every request. -/
def completeOk : OpenAIRequest → Except ProviderError String := fun _ => Except.ok "done"

/-- An environment with no variables set. -/
def emptyEnv : String → Option String := fun _ => none

/-- The store that results from indexing docB on behalf of tenantB starting
from the empty store: the record lands in the constant namespace. -/
def storeAfterB : Store := [("first-user-1", [VectorRecord.mk "docB" [1] none])]

/-- C1 counterexample: tenant isolation fails on the code. The tenants tenantA
and tenantB are distinct, yet both resolve to the one constant namespace;
indexing docB on behalf of tenantB lands in that namespace, and a subsequent
search made on behalf of tenantA (the code's search carries no tenant
identifier at all) returns docB. -/
theorem tenantIsolation_counterexample :
    ("tenantA" : String) ≠ "tenantB" ∧
    resolve "tenantA" = resolve "tenantB" ∧
    (indexDocument embedOne [] "tenantB" "docB" "hello").1 = Except.ok storeAfterB ∧
    semanticSearch dotScore embedOne storeAfterB "query" 5 =
      Except.ok [RetrievalMatch.mk "docB" 1 none] := by
  refine ⟨by decide, rfl, rfl, rfl⟩

/-- C1 amended: the code provides no per-tenant scoping. semanticSearch carries
no tenant identifier, and for every tenant t the namespace it reads is exactly
the namespace t resolves to — the one constant namespace — so every tenant's
indexed data is visible to, and influences, every search. -/
theorem search_reads_every_tenants_namespace (t : String)
    (score : EmbeddingVector → EmbeddingVector → Int)
    (embed : String → Except ProviderError EmbeddingVector) (store : Store)
    (query : String) (topK : Nat) :
    semanticSearch score embed store query topK =
      (embed query).map
        (fun v => (indexQuery score store (resolve t) (searchRequest v topK)).matchList) := by
  unfold semanticSearch resolve
  cases embed query <;> rfl

/-- C2 counterexample: the code's tenant-to-namespace mapping is not injective —
the distinct tenants t1 and t2 resolve to the same namespace. -/
theorem resolve_not_injective :
    ("t1" : String) ≠ "t2" ∧ resolve "t1" = resolve "t2" := by
  refine ⟨by decide, rfl⟩

/-- C2 amended: the code's tenant-to-namespace mapping is pure, total and
deterministic, but constant — every tenant resolves to the namespace
"first-user-1", so distinct tenants always collide rather than never. -/
theorem resolve_constant (t : String) : resolve t = "first-user-1" := rfl

/-- C3 counterexample: given the model hint "unknown-model-x", the router does
not fail at all (the code has no UnsupportedModelError and performs no model
validation): it issues exactly one network call carrying the unknown model to
the completion provider and returns the provider's answer. -/
theorem route_unknownModel_counterexample :
    getOpenAICompletion completeOk "hi" "unknown-model-x" =
      (Except.ok "done", [OpenAIRequest.mk "unknown-model-x" "hi"]) := rfl

/-- C3 amended: the router performs no model validation: for every model hint,
recognized or not, it issues exactly one provider call carrying that hint
unchanged, and its result is whatever the provider returns — an unknown model
surfaces as an upstream provider failure, never as a local UnsupportedModelError. -/
theorem route_forwards_model (complete : OpenAIRequest → Except ProviderError String)
    (message model : String) :
    getOpenAICompletion complete message model =
      (complete (routeRequest message model), [routeRequest message model]) := rfl

/-- C4: for every tenant, query text and topK at least 1, a successful search
returns exactly the index's response for the tenant's resolved namespace: a
sequence of at most topK matches, sorted by non-increasing score, drawn as the
topK nearest under the index's metric. -/
theorem search_topK_sorted
    (score : EmbeddingVector → EmbeddingVector → Int)
    (embed : String → Except ProviderError EmbeddingVector) (store : Store)
    (t query : String) (topK : Nat) (v : EmbeddingVector)
    (h1 : 1 ≤ topK) (h2 : embed query = Except.ok v) :
    semanticSearch score embed store query topK =
      Except.ok (indexQuery score store (resolve t) (searchRequest v topK)).matchList ∧
    (indexQuery score store (resolve t) (searchRequest v topK)).matchList.length ≤ topK ∧
    (indexQuery score store (resolve t) (searchRequest v topK)).matchList.Pairwise
      (fun a b => b.score ≤ a.score) := by
  refine ⟨?_, ?_, ?_⟩
  · unfold semanticSearch
    rw [h2]
    rfl
  · simp only [indexQuery, searchRequest]
    exact List.length_take_le _ _
  · simp only [indexQuery, searchRequest]
    have hs := List.sorted_insertionSort descRel
      ((namespaceRecords store (resolve t)).map
        (fun r => RetrievalMatch.mk r.id (score v r.values)
          (if (QueryRequest.mk topK v true).includeMetadata then r.metadata else none)))
    exact List.Pairwise.sublist (List.take_sublist topK _) hs

/-- C4 witness: the theorem at a concrete metric, provider, store, tenant,
query and topK equal to 2. -/
theorem search_topK_sorted_witness :
    semanticSearch dotScore embedOne storeAfterB "query" 2 =
      Except.ok (indexQuery dotScore storeAfterB (resolve "tenantA") (searchRequest [1] 2)).matchList ∧
    (indexQuery dotScore storeAfterB (resolve "tenantA") (searchRequest [1] 2)).matchList.length ≤ 2 ∧
    (indexQuery dotScore storeAfterB (resolve "tenantA") (searchRequest [1] 2)).matchList.Pairwise
      (fun a b => b.score ≤ a.score) :=
  search_topK_sorted dotScore embedOne storeAfterB "tenantA" "query" 2 [1] (by decide) rfl

/-- C5: a call with empty content or empty docId fails with ValidationError and
issues no external effect at all: no embedding call and no upsert. -/
theorem indexDocument_rejects_empty
    (embed : String → Except ProviderError EmbeddingVector) (store : Store)
    (tenantId docId content : String) (h : content = "" ∨ docId = "") :
    indexDocument embed store tenantId docId content =
      (Except.error CoreError.validationError, []) := by
  unfold indexDocument
  rw [if_pos h]

/-- C5 witness: the theorem at a concrete call with empty content. -/
theorem indexDocument_rejects_empty_witness :
    indexDocument embedOne [] "tenant1" "doc1" "" =
      (Except.error CoreError.validationError, []) :=
  indexDocument_rejects_empty embedOne [] "tenant1" "doc1" "" (Or.inl rfl)

/-- C6: in every indexDocument call the upsert effect appears only after an
embedding effect, a call that errors issues no upsert, and in particular when
the embedding call fails the trace contains no upsert at all. -/
theorem indexDocument_upsert_after_embed
    (embed : String → Except ProviderError EmbeddingVector) (store : Store)
    (tenantId docId content : String) :
    upsertOnlyAfterEmbed (indexDocument embed store tenantId docId content).2 = true ∧
    errorImpliesNoUpsert (indexDocument embed store tenantId docId content) = true ∧
    ∀ e, embed content = Except.error e →
      ((indexDocument embed store tenantId docId content).2.all
        (fun x => !isUpsertCall x)) = true := by
  by_cases hval : content = "" ∨ docId = ""
  · simp [indexDocument, if_pos hval, upsertOnlyAfterEmbed, upsertAfterEmbedAux,
      errorImpliesNoUpsert]
  · cases hemb : embed content with
    | error e =>
        simp [indexDocument, if_neg hval, hemb, upsertOnlyAfterEmbed,
          upsertAfterEmbedAux, errorImpliesNoUpsert, isUpsertCall]
    | ok v =>
        refine ⟨?_, ?_, ?_⟩
        · simp [indexDocument, if_neg hval, hemb, upsertOnlyAfterEmbed, upsertAfterEmbedAux]
        · simp [indexDocument, if_neg hval, hemb, errorImpliesNoUpsert]
        · intro e2 h2
          exact Except.noConfusion h2

/-- C6 witness: the theorem at a concrete call whose embedding fails, with the
embedding-failure hypothesis discharged there. -/
theorem indexDocument_upsert_after_embed_witness :
    upsertOnlyAfterEmbed (indexDocument embedBoom [] "tenant1" "doc1" "text").2 = true ∧
    errorImpliesNoUpsert (indexDocument embedBoom [] "tenant1" "doc1" "text") = true ∧
    ((indexDocument embedBoom [] "tenant1" "doc1" "text").2.all
      (fun x => !isUpsertCall x)) = true :=
  ⟨(indexDocument_upsert_after_embed embedBoom [] "tenant1" "doc1" "text").1,
   (indexDocument_upsert_after_embed embedBoom [] "tenant1" "doc1" "text").2.1,
   (indexDocument_upsert_after_embed embedBoom [] "tenant1" "doc1" "text").2.2
     (ProviderError.upstream "boom") rfl⟩

/-- C7 counterexample: with PINECONE_API_KEY unset, constructing the pinecone
client module fails at load time — the source throws while the module
initializes — instead of surfacing a per-call error result to an operation's
caller: loading the core with missing configuration aborts the process. -/
theorem pineconeInit_missingKey_counterexample :
    pineconeClientInit emptyEnv =
      Except.error (InitError.missingEnv "PINECONE_API_KEY") := rfl

/-- C7 amended: failures of the core's operations are surfaced per-call, but
client construction is not: module initialization of the pinecone client fails
exactly when PINECONE_API_KEY is absent from the environment or set to the
empty string (the source's truthiness guard), and that failure is a throw at
module load, aborting the importing process. -/
theorem pineconeInit_error_iff_missing (env : String → Option String) :
    pineconeClientInit env = Except.error (InitError.missingEnv "PINECONE_API_KEY") ↔
      (env "PINECONE_API_KEY" = none ∨ env "PINECONE_API_KEY" = some "") := by
  unfold pineconeClientInit
  cases env "PINECONE_API_KEY" with
  | none => simp
  | some k => by_cases hk : k = "" <;> simp [hk]

/-- C9 counterexample: retrieved context is never composed into the outbound
prompt: for the message "hi", the outbound input is exactly "hi" and in
particular differs from any composition that places a nonempty context block
such as "ctx" ahead of the message — the code's router has no context input. -/
theorem route_no_context_counterexample :
    (routeRequest "hi" "gpt-4o").input = "hi" ∧
    (routeRequest "hi" "gpt-4o").input ≠ "ctx" ++ "hi" := by
  refine ⟨rfl, by decide⟩

/-- C9 amended: the outbound request is the pair of the model hint and the
message unchanged, a deterministic function of those two inputs alone —
identical inputs yield identical outbound requests, and no context is ever
prepended because the router accepts no context. -/
theorem route_outbound_is_message (message model : String) :
    (routeRequest message model).input = message ∧
    (routeRequest message model).model = model :=
  ⟨rfl, rfl⟩

/-- C10: with topK omitted, semanticSearch issues the index query with topK 5
and includeMetadata true against the namespace "first-user-1", and returns the
index's match list exactly as received — no re-sorting, filtering, truncation
or topK validation of its own. -/
theorem semanticSearch_default_topK
    (score : EmbeddingVector → EmbeddingVector → Int)
    (embed : String → Except ProviderError EmbeddingVector) (store : Store)
    (query : String) :
    semanticSearch score embed store query =
      (embed query).map
        (fun v => (indexQuery score store "first-user-1" (QueryRequest.mk 5 v true)).matchList) := by
  unfold semanticSearch
  cases embed query <;> rfl

end Rag
